import Mathlib

/-!
Verification of the session-aware chat submit flow of `src/static/chat.js`.

The JavaScript is a DOM event handler; we embed it as pure functions over an
explicit state:

* `ChatState` holds the in-memory `sessionId` variable, the durable
  `localStorage` entry under the key `chatSessionId`, the text content of the
  input field, and the chat message list (as a list of DOM nodes: message
  bubbles and the typing-indicator node).
* The server side of one `fetch('/api/chat')` round trip is a `ServerBehavior`
  parameter: the promise rejects (`netError`), or a response arrives carrying
  an HTTP-success flag and either a parsed JSON body or a parse failure
  (`response.json()` throwing).  The code under verification never reads the
  HTTP-success flag, mirroring the absence of a `response.ok` check in the
  source.
* The markdown renderer `marked.parse` is an opaque parameter
  `mp : String → String`.
* JavaScript truthiness of the string-or-null values involved (`sessionId`,
  `data.session_id`, `timestamp`) is modelled by `jsTruthy` / `jsOr`:
  `null` and `""` are falsy, every other string is truthy.
-/

namespace Chat

/-- Message author, the `sender` argument of `addMessage`. -/
inductive Sender
  | user
  | bot
deriving DecidableEq

/-- How the text of a bubble was inserted into the DOM: via `textContent`
(literal, never interpreted as markup) or via `innerHTML` after
`marked.parse` (the markup-interpreting path). -/
inductive RenderedText
  | literal (s : String)
  | markup (s : String)
deriving DecidableEq

/-- One rendered message bubble: sender, inserted content, time label. -/
structure Bubble where
  sender : Sender
  content : RenderedText
  time : String
deriving DecidableEq

/-- A child of the `chatMessages` container: a message bubble or the
typing-indicator placeholder (`id="typing-indicator"`). -/
inductive DomNode
  | bubble (b : Bubble)
  | typing
deriving DecidableEq

/-- The mutable state the handler touches: the in-memory `sessionId`
variable, the `localStorage` entry under `chatSessionId`, the input field
value, and the message list.  `none` models JavaScript `null` / an absent
storage entry. -/
structure ChatState where
  sessionId : Option String
  storage : Option String
  inputValue : String
  messages : List DomNode
deriving DecidableEq

/-- A successfully parsed JSON response body.  `response` is required by the
wire protocol; `session_id` and `timestamp` may be absent (`none`). -/
structure RespData where
  response : String
  session_id : Option String
  timestamp : Option String
deriving DecidableEq

/-- Outcome of one `fetch` round trip: the promise rejects (network
unreachable), or a response arrives with HTTP-success flag `ok` and a body
that parses to `some` data or fails to parse (`none`, i.e. `response.json()`
throws). -/
inductive ServerBehavior
  | netError
  | reply (ok : Bool) (body : Option RespData)
deriving DecidableEq

/-- The multipart form payload of one request: `user_input` always,
`session_id` only when a truthy token is held (`none` = field absent). -/
structure Request where
  user_input : String
  session_id : Option String
deriving DecidableEq

/-- A JavaScript `String.prototype.trim` whitespace character (the common
ASCII ones; the Unicode cases do not affect any claim). -/
def isJsWhitespace (c : Char) : Bool :=
  c = ' ' || c = '\t' || c = '\n' || c = '\r' || c = '\x0b' || c = '\x0c'

/-- Drop leading whitespace characters. -/
def dropWs : List Char → List Char
  | [] => []
  | c :: rest => if isJsWhitespace c then dropWs rest else c :: rest

/-- JavaScript `s.trim()`: strip whitespace from both ends. -/
def jsTrim (s : String) : String :=
  String.mk (List.reverse (dropWs (List.reverse (dropWs s.data))))

/-- JavaScript truthiness of a string-or-null value: `null` and `""` are
falsy. -/
def jsTruthy : Option String → Bool
  | some s => if s = "" then false else true
  | none => false

/-- JavaScript `v || dflt` for a string-or-null `v`. -/
def jsOr : Option String → String → String
  | some s, dflt => if s = "" then dflt else s
  | none, dflt => dflt

/-- The fixed apology string rendered on a caught failure. -/
def apologyText : String := "Sorry, I encountered an error. Please try again."

/-- The fixed `localStorage` key. -/
def storageKey : String := "chatSessionId"

/-- `let sessionId = localStorage.getItem('chatSessionId') || null`. -/
def initSessionId (stored : Option String) : Option String :=
  if jsTruthy stored then stored else none

/-- State after `DOMContentLoaded` initialization, given the pre-existing
durable storage value: the token is loaded, input empty, no messages. -/
def initState (stored : Option String) : ChatState :=
  { sessionId := initSessionId stored
    storage := stored
    inputValue := ""
    messages := [] }

/-- `addMessage(text, sender, timestamp)`: appends one bubble; a user bubble
sets `textContent` (literal), a bot bubble sets `innerHTML` to
`marked.parse(text)`; the time label is `timestamp || getCurrentTime()`. -/
def addMessage (mp : String → String) (text : String) (sender : Sender)
    (timestamp : Option String) (now : String) (msgs : List DomNode) :
    List DomNode :=
  msgs ++ [DomNode.bubble
    { sender := sender
      content := match sender with
        | Sender.bot => RenderedText.markup (mp text)
        | Sender.user => RenderedText.literal text
      time := jsOr timestamp now }]

/-- `showTypingIndicator()`: appends the placeholder node. -/
def showTypingIndicator (msgs : List DomNode) : List DomNode :=
  msgs ++ [DomNode.typing]

/-- `removeTypingIndicator()`: `getElementById` returns the first node with
the id in document order; it is removed if present, otherwise no-op. -/
def removeFirstTyping : List DomNode → List DomNode
  | [] => []
  | DomNode.typing :: rest => rest
  | DomNode.bubble b :: rest => DomNode.bubble b :: removeFirstTyping rest

/-- The submit handler up to (and including) sending the request: trim the
input; on empty input return (`none`: no state change, no request); else
render the user bubble, clear the input, show the typing indicator, and
build the form payload (with `session_id` only if the held token is
truthy). -/
def submitPre (mp : String → String) (now : String) (s : ChatState) :
    Option (ChatState × Request) :=
  let message := jsTrim s.inputValue
  if message = "" then none
  else
    some
      ({ s with
          inputValue := ""
          messages := (showTypingIndicator
            (addMessage mp message Sender.user none now s.messages)) },
        { user_input := message
          session_id := (if jsTruthy s.sessionId then s.sessionId else none) })

/-- The response-handling continuation: on a parsed body, store a truthy
`session_id` into both the variable and durable storage, remove the typing
indicator, render the bot bubble from `data.response` via `marked.parse`
with `data.timestamp || local time`; on a rejected fetch or a JSON parse
failure, the `catch` block removes the typing indicator and renders the
apology as a bot bubble with the local time.  The HTTP-success flag is not
consulted. -/
def submitPost (mp : String → String) (srv : ServerBehavior) (now : String)
    (s : ChatState) : ChatState :=
  match srv with
  | ServerBehavior.netError =>
      { s with messages := (addMessage mp apologyText Sender.bot none now
          (removeFirstTyping s.messages)) }
  | ServerBehavior.reply _ none =>
      { s with messages := (addMessage mp apologyText Sender.bot none now
          (removeFirstTyping s.messages)) }
  | ServerBehavior.reply _ (some d) =>
      let s1 := if jsTruthy d.session_id then
          { s with sessionId := d.session_id, storage := d.session_id }
        else s
      { s1 with messages := (addMessage mp d.response Sender.bot d.timestamp now
          (removeFirstTyping s1.messages)) }

/-- One complete run of the form's submit handler.  Returns the new state
and the request that was sent (`none` when the empty-input guard fired). -/
def submit (mp : String → String) (srv : ServerBehavior) (now : String)
    (s : ChatState) : ChatState × Option Request :=
  match submitPre mp now s with
  | none => (s, none)
  | some (s1, req) => (submitPost mp srv now s1, some req)

/-- The quick-question click handler: set the input field to the preset text
and dispatch the form's submit event. -/
def quickSubmit (mp : String → String) (srv : ServerBehavior) (now : String)
    (presetText : String) (s : ChatState) : ChatState × Option Request :=
  submit mp srv now { s with inputValue := presetText }

/-- A sequence of user interactions: each step types `input` into the field
and submits, with the given server behavior and local time.  Returns the
final state and the requests actually sent. -/
def runSubmits (mp : String → String)
    (steps : List (String × ServerBehavior × String)) (s : ChatState) :
    ChatState × List Request :=
  match steps with
  | [] => (s, [])
  | (input, srv, now) :: rest =>
      let r := submit mp srv now { s with inputValue := input }
      let r2 := runSubmits mp rest r.fst
      (r2.fst, r.snd.toList ++ r2.snd)

/-- Number of user-sender bubbles in a message list. -/
def countUser : List DomNode → Nat
  | [] => 0
  | DomNode.bubble b :: rest =>
      (if b.sender = Sender.user then 1 else 0) + countUser rest
  | DomNode.typing :: rest => countUser rest

/-- No typing-indicator node is present. -/
def noTyping (msgs : List DomNode) : Prop := DomNode.typing ∉ msgs

instance (msgs : List DomNode) : Decidable (noTyping msgs) := by
  unfold noTyping; infer_instance

/-- The in-memory token and the durable storage entry agree. -/
def inSync (s : ChatState) : Prop := s.sessionId = s.storage

instance (s : ChatState) : Decidable (inSync s) := by
  unfold inSync; infer_instance

/-- A server step does not issue a token different from `S`: any truthy
`session_id` it carries equals `S`. -/
def keepsToken (S : String) : ServerBehavior → Prop
  | ServerBehavior.reply _ (some d) =>
      jsTruthy d.session_id = true → d.session_id = some S
  | _ => True

instance (S : String) (srv : ServerBehavior) : Decidable (keepsToken S srv) := by
  cases srv with
  | netError => exact isTrue trivial
  | reply ok body =>
      cases body with
      | none => exact isTrue trivial
      | some d => unfold keepsToken; infer_instance

/-- The round trip failed in a way the `catch` block sees: the fetch promise
rejected, or `response.json()` threw.  A non-2xx response whose body parses
is not among these, because the code never reads the HTTP status. -/
def caughtFailure : ServerBehavior → Bool
  | ServerBehavior.netError => true
  | ServerBehavior.reply _ none => true
  | ServerBehavior.reply _ (some _) => false

/-- Is this node a bot bubble carrying the markdown-rendered apology text? -/
def isApologyBubble (mp : String → String) : DomNode → Bool
  | DomNode.bubble b =>
      if b.sender = Sender.bot ∧ b.content = RenderedText.markup (mp apologyText)
      then true else false
  | DomNode.typing => false

/-- Number of apology bubbles in a message list. -/
def countApology (mp : String → String) (msgs : List DomNode) : Nat :=
  (msgs.filter (isApologyBubble mp)).length

theorem noTyping_append_bubble {xs : List DomNode} (b : Bubble)
    (h : noTyping xs) : noTyping (xs ++ [DomNode.bubble b]) := by
  intro hm
  rcases List.mem_append.mp hm with hm1 | hm2
  · exact h hm1
  · simp at hm2

theorem removeFirstTyping_append_typing (xs : List DomNode)
    (h : noTyping xs) : removeFirstTyping (xs ++ [DomNode.typing]) = xs := by
  induction xs with
  | nil => rfl
  | cons a as ih =>
      cases a with
      | typing => exact absurd (List.mem_cons_self _ _) h
      | bubble b =>
          have h2 : noTyping as := fun hm => h (List.mem_cons_of_mem _ hm)
          simp [removeFirstTyping, ih h2]

theorem countUser_append (xs ys : List DomNode) :
    countUser (xs ++ ys) = countUser xs + countUser ys := by
  induction xs with
  | nil => simp [countUser]
  | cons a as ih =>
      cases a with
      | typing => simpa [countUser] using ih
      | bubble b => simp [countUser, ih]; omega

theorem countUser_removeFirstTyping (l : List DomNode) :
    countUser (removeFirstTyping l) = countUser l := by
  induction l with
  | nil => rfl
  | cons a as ih =>
      cases a with
      | typing => simp [removeFirstTyping, countUser]
      | bubble b => simp [removeFirstTyping, countUser, ih]

/-- Shape of a full submit when the `catch` block runs (fetch rejection or
JSON parse failure): one user bubble and one apology bubble appended, input
cleared, tokens untouched, one request sent. -/
theorem submit_failure_eq (mp : String → String) (srv : ServerBehavior)
    (now : String) (s : ChatState) (h : ¬ jsTrim s.inputValue = "")
    (hnt : noTyping s.messages) (hf : caughtFailure srv = true) :
    submit mp srv now s =
      ({ s with
          inputValue := ""
          messages := (s.messages ++
            [DomNode.bubble ⟨Sender.user, RenderedText.literal (jsTrim s.inputValue), now⟩,
             DomNode.bubble ⟨Sender.bot, RenderedText.markup (mp apologyText), now⟩]) },
        some { user_input := jsTrim s.inputValue
               session_id := (if jsTruthy s.sessionId then s.sessionId else none) }) := by
  have hrm := removeFirstTyping_append_typing
    (s.messages ++ [DomNode.bubble ⟨Sender.user, RenderedText.literal (jsTrim s.inputValue), now⟩])
    (noTyping_append_bubble _ hnt)
  cases srv with
  | netError =>
      simp only [submit, submitPre, submitPost, showTypingIndicator, addMessage, jsOr,
        h, if_false, ite_false, List.append_assoc, List.cons_append, List.nil_append] at hrm ⊢
      simp [hrm, List.append_assoc]
  | reply ok body =>
      cases body with
      | none =>
          simp only [submit, submitPre, submitPost, showTypingIndicator, addMessage, jsOr,
            h, if_false, ite_false, List.append_assoc, List.cons_append, List.nil_append] at hrm ⊢
          simp [hrm, List.append_assoc]
      | some d => simp [caughtFailure] at hf

/-- Shape of a full submit when the body parses: a truthy `session_id` is
written to both token locations, the bot bubble renders `response` through
the markdown converter with `timestamp || local time`, and one request is
sent. -/
theorem submit_success_eq (mp : String → String) (ok : Bool) (d : RespData)
    (now : String) (s : ChatState) (h : ¬ jsTrim s.inputValue = "")
    (hnt : noTyping s.messages) :
    submit mp (ServerBehavior.reply ok (some d)) now s =
      ({ sessionId := (if jsTruthy d.session_id then d.session_id else s.sessionId)
         storage := (if jsTruthy d.session_id then d.session_id else s.storage)
         inputValue := ""
         messages := (s.messages ++
           [DomNode.bubble ⟨Sender.user, RenderedText.literal (jsTrim s.inputValue), now⟩,
            DomNode.bubble ⟨Sender.bot, RenderedText.markup (mp d.response),
              jsOr d.timestamp now⟩]) },
        some { user_input := jsTrim s.inputValue
               session_id := (if jsTruthy s.sessionId then s.sessionId else none) }) := by
  have hrm := removeFirstTyping_append_typing
    (s.messages ++ [DomNode.bubble ⟨Sender.user, RenderedText.literal (jsTrim s.inputValue), now⟩])
    (noTyping_append_bubble _ hnt)
  by_cases ht : jsTruthy d.session_id
  · simp only [submit, submitPre, submitPost, showTypingIndicator, addMessage, jsOr,
      h, ht, if_false, ite_false, if_true, ite_true, List.append_assoc, List.cons_append,
      List.nil_append] at hrm ⊢
    simp [hrm, ht, List.append_assoc]
  · simp only [submit, submitPre, submitPost, showTypingIndicator, addMessage, jsOr,
      h, if_false, ite_false, List.append_assoc, List.cons_append, List.nil_append,
      Bool.not_eq_true] at hrm ⊢
    simp [hrm, ht, List.append_assoc]

/-- One interaction step (type `input`, submit) keeps a held non-empty token
`S` in both locations when the server issues no different truthy token, and
any request it sends carries `session_id = S`. -/
theorem submit_token_step (mp : String → String) (srv : ServerBehavior)
    (now input S : String) (s : ChatState) (hne : S ≠ "")
    (hk : keepsToken S srv) (h1 : s.sessionId = some S)
    (h2 : s.storage = some S) :
    ((submit mp srv now { s with inputValue := input }).fst.sessionId = some S) ∧
    ((submit mp srv now { s with inputValue := input }).fst.storage = some S) ∧
    (∀ r, (submit mp srv now { s with inputValue := input }).snd = some r →
      r.session_id = some S) := by
  have hS : jsTruthy (some S) = true := by simp [jsTruthy, hne]
  by_cases he : jsTrim input = ""
  · simp [submit, submitPre, he, h1, h2]
  · cases srv with
    | netError =>
        simp [submit, submitPre, submitPost, he, h1, h2, hS]
    | reply ok body =>
        cases body with
        | none => simp [submit, submitPre, submitPost, he, h1, h2, hS]
        | some d =>
            by_cases ht : jsTruthy d.session_id
            · have hds := hk ht
              simp [submit, submitPre, submitPost, he, h1, h2, ht, hds, hS]
            · rw [Bool.not_eq_true] at ht
              simp [submit, submitPre, submitPost, he, h1, h2, ht, hS]

/-- Over any interaction sequence in which the server never issues a token
different from the held non-empty `S`, both token locations keep `S` and
every request sent carries `session_id = S`. -/
theorem runSubmits_keeps_token (mp : String → String) (S : String)
    (steps : List (String × ServerBehavior × String)) (hne : S ≠ "")
    (hk : ∀ st ∈ steps, keepsToken S st.2.1) (s : ChatState)
    (h1 : s.sessionId = some S) (h2 : s.storage = some S) :
    ((runSubmits mp steps s).fst.sessionId = some S) ∧
    ((runSubmits mp steps s).fst.storage = some S) ∧
    (∀ r ∈ (runSubmits mp steps s).snd, r.session_id = some S) := by
  induction steps generalizing s with
  | nil => simp [runSubmits, h1, h2]
  | cons st rest ih =>
      obtain ⟨input, srv, now⟩ := st
      have hstep := submit_token_step mp srv now input S s hne
        (hk _ (List.mem_cons_self _ _)) h1 h2
      have hrec := ih (fun st2 hm => hk st2 (List.mem_cons_of_mem _ hm)) _
        hstep.1 hstep.2.1
      refine ⟨hrec.1, hrec.2.1, ?_⟩
      intro r hr
      simp only [runSubmits] at hr
      rcases List.mem_append.mp hr with hr1 | hr2
      · cases hq : (submit mp srv now { s with inputValue := input }).snd with
        | none => simp [hq] at hr1
        | some req =>
            simp [hq] at hr1
            rw [hr1]
            exact hstep.2.2 _ hq
      · exact hrec.2.2 r hr2

/-- C3: for every input that is empty or whitespace-only (trims to the empty
string), the submit handler performs no side effects: the whole state —
messages, in-memory session token, durable storage, input field — is
unchanged and no network request is sent. -/
theorem empty_input_noop (mp : String → String) (srv : ServerBehavior)
    (now : String) (s : ChatState) (h : jsTrim s.inputValue = "") :
    submit mp srv now s = (s, none) := by
  simp [submit, submitPre, h]

/-- Witness: the spec scenario of submitting a whitespace-only input. -/
theorem empty_input_noop_witness :
    submit (fun x => x) ServerBehavior.netError "12:00"
        { sessionId := some "tok", storage := some "tok", inputValue := "  ",
          messages := [] }
      = ({ sessionId := some "tok", storage := some "tok", inputValue := "  ",
           messages := [] }, none) :=
  empty_input_noop (fun x => x) ServerBehavior.netError "12:00"
    { sessionId := some "tok", storage := some "tok", inputValue := "  ",
      messages := [] } (by decide)

/-- C8: for every preset text `p`, the quick-question click handler produces
exactly the state (rendering, storage) and network effects of writing `p`
into the input field and invoking the submit handler. -/
theorem quickSubmit_equiv (mp : String → String) (srv : ServerBehavior)
    (now presetText : String) (s : ChatState) :
    quickSubmit mp srv now presetText s
      = submit mp srv now { s with inputValue := presetText } := rfl

/-- C9: a response whose `session_id` is present but equal to the empty
string produces exactly the same outcome as a response without `session_id`
(nothing is stored), and a held empty-string token is never placed into a
request payload: only truthy token values are stored and sent. -/
theorem empty_session_id_treated_absent (mp : String → String) (ok : Bool)
    (resp : String) (ts : Option String) (srv2 : ServerBehavior)
    (now now2 : String) (s s2 : ChatState) (h2 : s2.sessionId = some "") :
    submit mp (ServerBehavior.reply ok (some ⟨resp, some "", ts⟩)) now s
      = submit mp (ServerBehavior.reply ok (some ⟨resp, none, ts⟩)) now s ∧
    (∀ r, (submit mp srv2 now2 s2).snd = some r → r.session_id = none) := by
  constructor
  · cases hpre : submitPre mp now s with
    | none => simp [submit, hpre]
    | some p => simp [submit, hpre, submitPost, jsTruthy]
  · intro r hr
    by_cases he : jsTrim s2.inputValue = ""
    · simp [submit, submitPre, he] at hr
    · have hq : (submit mp srv2 now2 s2).snd
          = some { user_input := jsTrim s2.inputValue
                   session_id := (if jsTruthy s2.sessionId then s2.sessionId
                     else none) } := by
        simp [submit, submitPre, he]
      rw [hq, Option.some_inj] at hr
      rw [← hr]
      simp [h2, jsTruthy]

/-- Witness: an empty-string `session_id` in the reply is not stored (same
outcome as omitting it), and a state holding an empty-string token sends a
payload without the field. -/
theorem empty_session_id_treated_absent_witness :
    (submit (fun x => x)
        (ServerBehavior.reply true (some ⟨"r", some "", some "t"⟩)) "12:00"
        { sessionId := some "old", storage := some "old", inputValue := "hi",
          messages := [] }
      = submit (fun x => x)
          (ServerBehavior.reply true (some ⟨"r", none, some "t"⟩)) "12:00"
          { sessionId := some "old", storage := some "old", inputValue := "hi",
            messages := [] }) ∧
    (∀ r, (submit (fun x => x) ServerBehavior.netError "12:01"
        { sessionId := some "", storage := none, inputValue := "again",
          messages := [] }).snd = some r → r.session_id = none) :=
  empty_session_id_treated_absent (fun x => x) true "r" (some "t")
    ServerBehavior.netError "12:00" "12:01"
    { sessionId := some "old", storage := some "old", inputValue := "hi",
      messages := [] }
    { sessionId := some "", storage := none, inputValue := "again",
      messages := [] } (by decide)

/-- C10 counterexample: initializing from a durable entry that holds the
empty string leaves the in-memory token (`null`, because of `|| null`) and
the durable entry (`""`) in disagreement. -/
theorem memory_storage_sync_cex : ¬ inSync (initState (some "")) := by decide

/-- C10 (amended): provided the pre-existing durable entry is absent or
non-empty — and this code never writes an empty one — the in-memory token
and the durable entry agree after initialization, and every submit
(successful or failed, any input) preserves their agreement, the single
store site writing both together. -/
theorem memory_storage_sync (stored : Option String) (mp : String → String)
    (srv : ServerBehavior) (now : String) (s : ChatState)
    (hs : stored ≠ some "") (hsync : inSync s) :
    inSync (initState stored) ∧ inSync (submit mp srv now s).fst := by
  constructor
  · cases stored with
    | none => simp [inSync, initState, initSessionId, jsTruthy]
    | some str =>
        have hne : str ≠ "" := fun hcon => hs (by rw [hcon])
        simp [inSync, initState, initSessionId, jsTruthy, hne]
  · by_cases he : jsTrim s.inputValue = ""
    · simpa [submit, submitPre, he] using hsync
    · cases srv with
      | netError =>
          simpa [submit, submitPre, submitPost, he, inSync] using hsync
      | reply ok body =>
          cases body with
          | none =>
              simpa [submit, submitPre, submitPost, he, inSync] using hsync
          | some d =>
              by_cases ht : jsTruthy d.session_id
              · simp [submit, submitPre, submitPost, he, ht, inSync]
              · rw [Bool.not_eq_true] at ht
                simpa [submit, submitPre, submitPost, he, ht, inSync]
                  using hsync

/-- Witness: agreement holds after initializing from a non-empty entry and
after a submit that stores a fresh token. -/
theorem memory_storage_sync_witness :
    inSync (initState (some "abc123")) ∧
    inSync (submit (fun x => x)
      (ServerBehavior.reply true (some ⟨"r", some "zzz", none⟩)) "12:00"
      { sessionId := some "abc123", storage := some "abc123",
        inputValue := "hi", messages := [] }).fst :=
  memory_storage_sync (some "abc123") (fun x => x)
    (ServerBehavior.reply true (some ⟨"r", some "zzz", none⟩)) "12:00"
    { sessionId := some "abc123", storage := some "abc123",
      inputValue := "hi", messages := [] } (by decide) (by decide)

/-- C7: a response that omits `session_id` leaves the previously held token
unchanged in memory and in durable storage, and a held non-empty token is
still included in the next submission's request payload. -/
theorem omitted_session_id_frame (mp : String → String) (ok : Bool)
    (resp : String) (ts : Option String) (srv2 : ServerBehavior)
    (now now2 t2 : String) (s : ChatState)
    (h : ¬ jsTrim s.inputValue = "") (hnt : noTyping s.messages)
    (h2 : ¬ jsTrim t2 = "") :
    ((submit mp (ServerBehavior.reply ok (some ⟨resp, none, ts⟩)) now
        s).fst.sessionId = s.sessionId) ∧
    ((submit mp (ServerBehavior.reply ok (some ⟨resp, none, ts⟩)) now
        s).fst.storage = s.storage) ∧
    (∀ S, s.sessionId = some S → S ≠ "" →
      (submit mp srv2 now2
          { (submit mp (ServerBehavior.reply ok (some ⟨resp, none, ts⟩)) now
              s).fst with inputValue := t2 }).snd
        = some { user_input := jsTrim t2, session_id := some S }) := by
  rw [submit_success_eq mp ok ⟨resp, none, ts⟩ now s h hnt]
  refine ⟨by simp [jsTruthy], by simp [jsTruthy], ?_⟩
  intro S hS hne
  have hSt : jsTruthy (some S) = true := by simp [jsTruthy, hne]
  simp [submit, submitPre, h2, jsTruthy, hS, hSt, hne]

/-- Witness: the second spec scenario — a held token `abc123` survives a
reply without `session_id` and is sent with the next submission. -/
theorem omitted_session_id_frame_witness :
    ((submit (fun x => x)
        (ServerBehavior.reply true (some ⟨"hello", none, none⟩)) "t1"
        { sessionId := some "abc123", storage := some "abc123",
          inputValue := "hi", messages := [] }).fst.sessionId
      = some "abc123") ∧
    ((submit (fun x => x)
        (ServerBehavior.reply true (some ⟨"hello", none, none⟩)) "t1"
        { sessionId := some "abc123", storage := some "abc123",
          inputValue := "hi", messages := [] }).fst.storage
      = some "abc123") ∧
    (∀ S, (some "abc123" : Option String) = some S → S ≠ "" →
      (submit (fun x => x) ServerBehavior.netError "t2"
          { (submit (fun x => x)
              (ServerBehavior.reply true (some ⟨"hello", none, none⟩)) "t1"
              { sessionId := some "abc123", storage := some "abc123",
                inputValue := "hi", messages := [] }).fst
              with inputValue := "again" }).snd
        = some { user_input := jsTrim "again", session_id := some S }) :=
  omitted_session_id_frame (fun x => x) true "hello" none
    ServerBehavior.netError "t1" "t2" "again"
    { sessionId := some "abc123", storage := some "abc123",
      inputValue := "hi", messages := [] } (by decide) (by decide) (by decide)

/-- C1 counterexample: a response that includes `session_id` with value
S = "" does not get S stored — the truthiness guard drops it, so neither
the in-memory token nor durable storage holds `""` afterwards. -/
theorem session_token_empty_string_cex :
    ((submit (fun x => x)
        (ServerBehavior.reply true (some ⟨"r", some "", none⟩)) "12:00"
        { sessionId := none, storage := none, inputValue := "hi",
          messages := [] }).fst.sessionId ≠ some "") ∧
    ((submit (fun x => x)
        (ServerBehavior.reply true (some ⟨"r", some "", none⟩)) "12:00"
        { sessionId := none, storage := none, inputValue := "hi",
          messages := [] }).fst.storage ≠ some "") := by decide

/-- C1 (amended): if a server response to a submit includes a NON-EMPTY
`session_id` value S, then S is stored both in the in-memory token and in
durable storage after the response is handled, and every subsequent submit
that sends a request includes `session_id = S` in its payload until the
server issues a different truthy value. -/
theorem session_token_store_and_resend (mp : String → String) (ok : Bool)
    (d : RespData) (now S : String) (s : ChatState)
    (steps : List (String × ServerBehavior × String))
    (h : ¬ jsTrim s.inputValue = "") (hS : d.session_id = some S)
    (hne : S ≠ "") (hk : ∀ st ∈ steps, keepsToken S st.2.1) :
    ((submit mp (ServerBehavior.reply ok (some d)) now s).fst.sessionId
      = some S) ∧
    ((submit mp (ServerBehavior.reply ok (some d)) now s).fst.storage
      = some S) ∧
    ((runSubmits mp steps
        (submit mp (ServerBehavior.reply ok (some d)) now s).fst).fst.sessionId
      = some S) ∧
    ((runSubmits mp steps
        (submit mp (ServerBehavior.reply ok (some d)) now s).fst).fst.storage
      = some S) ∧
    (∀ r ∈ (runSubmits mp steps
        (submit mp (ServerBehavior.reply ok (some d)) now s).fst).snd,
      r.session_id = some S) := by
  have ht : jsTruthy d.session_id = true := by rw [hS]; simp [jsTruthy, hne]
  have hTS : jsTruthy (some S) = true := by simp [jsTruthy, hne]
  have hp1 : (submit mp (ServerBehavior.reply ok (some d)) now
      s).fst.sessionId = some S := by
    simp [submit, submitPre, submitPost, h, ht, hS, hTS]
  have hp2 : (submit mp (ServerBehavior.reply ok (some d)) now
      s).fst.storage = some S := by
    simp [submit, submitPre, submitPost, h, ht, hS, hTS]
  have hrun := runSubmits_keeps_token mp S steps hne hk _ hp1 hp2
  exact ⟨hp1, hp2, hrun.1, hrun.2.1, hrun.2.2⟩

/-- Witness: the spec scenario — first submission receives `abc123`, which
both token locations then hold, and three follow-up interactions (a reply
without a token, a whitespace no-op under a network error, a non-2xx reply
with an unparseable body) all keep it and send it. -/
theorem session_token_store_and_resend_witness :
    ((submit (fun x => x)
        (ServerBehavior.reply true (some ⟨"welcome", some "abc123", none⟩))
        "t1" { sessionId := none, storage := none, inputValue := " hi ",
               messages := [] }).fst.sessionId = some "abc123") ∧
    ((submit (fun x => x)
        (ServerBehavior.reply true (some ⟨"welcome", some "abc123", none⟩))
        "t1" { sessionId := none, storage := none, inputValue := " hi ",
               messages := [] }).fst.storage = some "abc123") ∧
    ((runSubmits (fun x => x)
        [("again", ServerBehavior.reply true (some ⟨"r2", none, none⟩), "t2"),
         ("  ", ServerBehavior.netError, "t3"),
         ("third", ServerBehavior.reply false none, "t4")]
        (submit (fun x => x)
          (ServerBehavior.reply true (some ⟨"welcome", some "abc123", none⟩))
          "t1" { sessionId := none, storage := none, inputValue := " hi ",
                 messages := [] }).fst).fst.sessionId = some "abc123") ∧
    ((runSubmits (fun x => x)
        [("again", ServerBehavior.reply true (some ⟨"r2", none, none⟩), "t2"),
         ("  ", ServerBehavior.netError, "t3"),
         ("third", ServerBehavior.reply false none, "t4")]
        (submit (fun x => x)
          (ServerBehavior.reply true (some ⟨"welcome", some "abc123", none⟩))
          "t1" { sessionId := none, storage := none, inputValue := " hi ",
                 messages := [] }).fst).fst.storage = some "abc123") ∧
    (∀ r ∈ (runSubmits (fun x => x)
        [("again", ServerBehavior.reply true (some ⟨"r2", none, none⟩), "t2"),
         ("  ", ServerBehavior.netError, "t3"),
         ("third", ServerBehavior.reply false none, "t4")]
        (submit (fun x => x)
          (ServerBehavior.reply true (some ⟨"welcome", some "abc123", none⟩))
          "t1" { sessionId := none, storage := none, inputValue := " hi ",
                 messages := [] }).fst).snd,
      r.session_id = some "abc123") :=
  session_token_store_and_resend (fun x => x) true
    ⟨"welcome", some "abc123", none⟩ "t1" "abc123"
    { sessionId := none, storage := none, inputValue := " hi ",
      messages := [] }
    [("again", ServerBehavior.reply true (some ⟨"r2", none, none⟩), "t2"),
     ("  ", ServerBehavior.netError, "t3"),
     ("third", ServerBehavior.reply false none, "t4")]
    (by decide) (by decide) (by decide) (by decide)

/-- C2 counterexample: a non-2xx HTTP status with a valid JSON body is not a
caught failure — the code never reads the status, so the success path runs:
the server text is rendered as the bot bubble and no apology appears. -/
theorem non2xx_json_no_apology_cex :
    ((submit (fun x => x)
        (ServerBehavior.reply false (some ⟨"server text", none, none⟩))
        "12:00" { sessionId := none, storage := none, inputValue := "hi",
                  messages := [] }).fst.messages
      = [DomNode.bubble ⟨Sender.user, RenderedText.literal "hi", "12:00"⟩,
         DomNode.bubble ⟨Sender.bot, RenderedText.markup "server text",
           "12:00"⟩]) ∧
    countApology (fun x => x)
      ((submit (fun x => x)
        (ServerBehavior.reply false (some ⟨"server text", none, none⟩))
        "12:00" { sessionId := none, storage := none, inputValue := "hi",
                  messages := [] }).fst.messages) = 0 := by decide

/-- C2 (amended): the failures the catch block can see — fetch rejection
(network unreachable) and a malformed JSON body — are handled uniformly:
caught at the call site, the typing indicator removed, exactly one bot
bubble appended rendering the fixed apology text with the local time,
exactly one request sent and no retry, nothing re-thrown.  The HTTP status
is never inspected, so a non-2xx response with a valid JSON body follows
the success path instead. -/
theorem transport_failure_uniform (mp : String → String)
    (srv : ServerBehavior) (now : String) (s : ChatState)
    (h : ¬ jsTrim s.inputValue = "") (hnt : noTyping s.messages)
    (hf : caughtFailure srv = true) :
    (submit mp srv now s =
      ({ s with
          inputValue := ""
          messages := (s.messages ++
            [DomNode.bubble ⟨Sender.user,
               RenderedText.literal (jsTrim s.inputValue), now⟩,
             DomNode.bubble ⟨Sender.bot,
               RenderedText.markup (mp apologyText), now⟩]) },
        some { user_input := jsTrim s.inputValue
               session_id := (if jsTruthy s.sessionId then s.sessionId
                 else none) })) ∧
    countApology mp (submit mp srv now s).fst.messages
      = countApology mp s.messages + 1 ∧
    noTyping (submit mp srv now s).fst.messages ∧
    (∀ ok1 ok2 body, submit mp (ServerBehavior.reply ok1 body) now s
      = submit mp (ServerBehavior.reply ok2 body) now s) := by
  have hmain := submit_failure_eq mp srv now s h hnt hf
  refine ⟨hmain, ?_, ?_, ?_⟩
  · rw [hmain]
    simp [countApology, List.filter_append, isApologyBubble]
  · rw [hmain]
    intro hm
    rcases List.mem_append.mp hm with hm1 | hm2
    · exact hnt hm1
    · simp at hm2
  · intro ok1 ok2 body
    cases hpre : submitPre mp now s with
    | none => simp [submit, hpre]
    | some p =>
        cases body with
        | none => simp [submit, hpre, submitPost]
        | some d => simp [submit, hpre, submitPost]

/-- Witness: a fetch rejection on a fresh state — one user bubble, one
apology bubble, no typing indicator left, one request sent. -/
theorem transport_failure_uniform_witness :
    (submit (fun x => x) ServerBehavior.netError "12:00"
        { sessionId := none, storage := none, inputValue := " hi ",
          messages := [] } =
      ({ sessionId := none, storage := none, inputValue := "",
         messages := [DomNode.bubble ⟨Sender.user,
             RenderedText.literal "hi", "12:00"⟩,
           DomNode.bubble ⟨Sender.bot,
             RenderedText.markup apologyText, "12:00"⟩] },
        some { user_input := "hi", session_id := none })) ∧
    countApology (fun x => x)
      (submit (fun x => x) ServerBehavior.netError "12:00"
        { sessionId := none, storage := none, inputValue := " hi ",
          messages := [] }).fst.messages
      = countApology (fun x => x) [] + 1 ∧
    noTyping (submit (fun x => x) ServerBehavior.netError "12:00"
      { sessionId := none, storage := none, inputValue := " hi ",
        messages := [] }).fst.messages ∧
    (∀ ok1 ok2 body, submit (fun x => x) (ServerBehavior.reply ok1 body)
        "12:00" { sessionId := none, storage := none, inputValue := " hi ",
                  messages := [] }
      = submit (fun x => x) (ServerBehavior.reply ok2 body) "12:00"
        { sessionId := none, storage := none, inputValue := " hi ",
          messages := [] }) :=
  transport_failure_uniform (fun x => x) ServerBehavior.netError "12:00"
    { sessionId := none, storage := none, inputValue := " hi ",
      messages := [] } (by decide) (by decide) (by decide)

/-- C4: for every input that is non-empty after trimming, the submit handler
appends exactly one user-sender bubble whose displayed text is the trimmed
input, and it is appended before any network completion: it is already in
the message list produced by the pre-network part of the handler
(`submitPre`, everything up to sending the request), and after the full
cycle finishes — whatever the server does — the user-bubble count has risen
by exactly one. -/
theorem user_bubble_appended_pre_network (mp : String → String)
    (now : String) (s : ChatState) (h : ¬ jsTrim s.inputValue = "") :
    (∃ s1 req, submitPre mp now s = some (s1, req) ∧
      s1.messages = s.messages ++
        [DomNode.bubble ⟨Sender.user,
           RenderedText.literal (jsTrim s.inputValue), now⟩,
         DomNode.typing] ∧
      countUser s1.messages = countUser s.messages + 1 ∧
      (∀ srv, submit mp srv now s = (submitPost mp srv now s1, some req))) ∧
    (∀ srv, countUser (submit mp srv now s).fst.messages
      = countUser s.messages + 1) := by
  have hpre : submitPre mp now s = some
      ({ s with
          inputValue := ""
          messages := (s.messages ++
            [DomNode.bubble ⟨Sender.user,
               RenderedText.literal (jsTrim s.inputValue), now⟩,
             DomNode.typing]) },
        { user_input := jsTrim s.inputValue
          session_id := (if jsTruthy s.sessionId then s.sessionId
            else none) }) := by
    simp [submitPre, h, showTypingIndicator, addMessage, jsOr]
  have hcount : countUser (s.messages ++
      [DomNode.bubble ⟨Sender.user,
         RenderedText.literal (jsTrim s.inputValue), now⟩,
       DomNode.typing]) = countUser s.messages + 1 := by
    simp [countUser_append, countUser]
  refine ⟨⟨_, _, hpre, rfl, hcount, fun srv => by simp [submit, hpre]⟩, ?_⟩
  intro srv
  have hsub : ∀ s2 : ChatState, countUser (submitPost mp srv now s2).messages
      = countUser s2.messages := by
    intro s2
    cases srv with
    | netError =>
        simp [submitPost, addMessage, countUser_append,
          countUser_removeFirstTyping, countUser]
    | reply ok body =>
        cases body with
        | none =>
            simp [submitPost, addMessage, countUser_append,
              countUser_removeFirstTyping, countUser]
        | some d =>
            by_cases ht : jsTruthy d.session_id <;>
              simp [submitPost, ht, addMessage, countUser_append,
                countUser_removeFirstTyping, countUser]
  simp only [submit, hpre]
  rw [hsub]
  exact hcount

/-- Witness: a concrete padded input " hello " on a non-empty transcript. -/
theorem user_bubble_appended_pre_network_witness :
    (∃ s1 req, submitPre (fun x => x) "12:00"
        { sessionId := none, storage := none, inputValue := " hello ",
          messages := [DomNode.bubble ⟨Sender.bot,
            RenderedText.markup "welcome", "11:59"⟩] } = some (s1, req) ∧
      s1.messages = [DomNode.bubble ⟨Sender.bot,
          RenderedText.markup "welcome", "11:59"⟩] ++
        [DomNode.bubble ⟨Sender.user, RenderedText.literal "hello", "12:00"⟩,
         DomNode.typing] ∧
      countUser s1.messages = countUser [DomNode.bubble ⟨Sender.bot,
          RenderedText.markup "welcome", "11:59"⟩] + 1 ∧
      (∀ srv, submit (fun x => x) srv "12:00"
          { sessionId := none, storage := none, inputValue := " hello ",
            messages := [DomNode.bubble ⟨Sender.bot,
              RenderedText.markup "welcome", "11:59"⟩] }
        = (submitPost (fun x => x) srv "12:00" s1, some req))) ∧
    (∀ srv, countUser (submit (fun x => x) srv "12:00"
        { sessionId := none, storage := none, inputValue := " hello ",
          messages := [DomNode.bubble ⟨Sender.bot,
            RenderedText.markup "welcome", "11:59"⟩] }).fst.messages
      = countUser [DomNode.bubble ⟨Sender.bot,
          RenderedText.markup "welcome", "11:59"⟩] + 1) :=
  user_bubble_appended_pre_network (fun x => x) "12:00"
    { sessionId := none, storage := none, inputValue := " hello ",
      messages := [DomNode.bubble ⟨Sender.bot,
        RenderedText.markup "welcome", "11:59"⟩] } (by decide)

/-- C5: user-authored text is inserted literally (`textContent`), bot text
is passed through the markdown-to-markup conversion and inserted on the
markup path (`innerHTML`), and in a full submit the only markup-path bubble
appended takes its pre-conversion source from the server's `response` field
or the fixed apology constant — the user's input reaches only the literal
path and the request payload. -/
theorem markup_trust_boundary (mp : String → String) (srv : ServerBehavior)
    (now : String) (s : ChatState) (h : ¬ jsTrim s.inputValue = "")
    (hnt : noTyping s.messages) :
    (∀ text ts msgs, addMessage mp text Sender.user ts now msgs
      = msgs ++ [DomNode.bubble ⟨Sender.user, RenderedText.literal text,
          jsOr ts now⟩]) ∧
    (∀ text ts msgs, addMessage mp text Sender.bot ts now msgs
      = msgs ++ [DomNode.bubble ⟨Sender.bot, RenderedText.markup (mp text),
          jsOr ts now⟩]) ∧
    (∃ src tm,
      (src = apologyText ∨
        ∃ ok d, srv = ServerBehavior.reply ok (some d) ∧ src = d.response) ∧
      (submit mp srv now s).fst.messages = s.messages ++
        [DomNode.bubble ⟨Sender.user,
           RenderedText.literal (jsTrim s.inputValue), now⟩,
         DomNode.bubble ⟨Sender.bot, RenderedText.markup (mp src), tm⟩]) := by
  refine ⟨fun text ts msgs => rfl, fun text ts msgs => rfl, ?_⟩
  cases srv with
  | netError =>
      exact ⟨apologyText, now, Or.inl rfl,
        by rw [submit_failure_eq mp ServerBehavior.netError now s h hnt rfl]⟩
  | reply ok body =>
      cases body with
      | none =>
          exact ⟨apologyText, now, Or.inl rfl,
            by rw [submit_failure_eq mp (ServerBehavior.reply ok none) now s
              h hnt rfl]⟩
      | some d =>
          exact ⟨d.response, jsOr d.timestamp now, Or.inr ⟨ok, d, rfl, rfl⟩,
            by rw [submit_success_eq mp ok d now s h hnt]⟩

/-- Witness: a successful exchange on a fresh state — the user bubble is
literal, the bot bubble is the markdown-converted server text. -/
theorem markup_trust_boundary_witness :
    (∀ text ts msgs, addMessage (fun x => "MD" ++ x) text Sender.user ts
        "12:00" msgs
      = msgs ++ [DomNode.bubble ⟨Sender.user, RenderedText.literal text,
          jsOr ts "12:00"⟩]) ∧
    (∀ text ts msgs, addMessage (fun x => "MD" ++ x) text Sender.bot ts
        "12:00" msgs
      = msgs ++ [DomNode.bubble ⟨Sender.bot,
          RenderedText.markup ("MD" ++ text), jsOr ts "12:00"⟩]) ∧
    (∃ src tm,
      (src = apologyText ∨
        ∃ ok d, ServerBehavior.reply true
            (some ⟨"**hi**", none, none⟩ : Option RespData)
          = ServerBehavior.reply ok (some d) ∧ src = d.response) ∧
      (submit (fun x => "MD" ++ x)
        (ServerBehavior.reply true (some ⟨"**hi**", none, none⟩)) "12:00"
        { sessionId := none, storage := none, inputValue := "<b>x</b>",
          messages := [] }).fst.messages = [] ++
        [DomNode.bubble ⟨Sender.user, RenderedText.literal "<b>x</b>",
           "12:00"⟩,
         DomNode.bubble ⟨Sender.bot, RenderedText.markup ("MD" ++ src),
           tm⟩]) :=
  markup_trust_boundary (fun x => "MD" ++ x)
    (ServerBehavior.reply true (some ⟨"**hi**", none, none⟩)) "12:00"
    { sessionId := none, storage := none, inputValue := "<b>x</b>",
      messages := [] } (by decide) (by decide)

/-- C6 counterexample: an HTTP failure (non-2xx) whose body is valid JSON
carrying a `session_id` does change the stored token — the status is never
checked — and no apology bubble is rendered. -/
theorem non2xx_json_token_change_cex :
    ((submit (fun x => x)
        (ServerBehavior.reply false (some ⟨"r", some "tok", none⟩)) "12:00"
        { sessionId := some "old", storage := some "old", inputValue := "hi",
          messages := [] }).fst.sessionId = some "tok") ∧
    ((submit (fun x => x)
        (ServerBehavior.reply false (some ⟨"r", some "tok", none⟩)) "12:00"
        { sessionId := some "old", storage := some "old", inputValue := "hi",
          messages := [] }).fst.storage = some "tok") ∧
    countApology (fun x => x)
      ((submit (fun x => x)
        (ServerBehavior.reply false (some ⟨"r", some "tok", none⟩)) "12:00"
        { sessionId := some "old", storage := some "old", inputValue := "hi",
          messages := [] }).fst.messages) = 0 ∧
    (some "tok" : Option String) ≠ some "old" := by decide

/-- C6 (amended): when the exchange fails in a way the code can observe —
fetch rejection or a JSON parse failure — the session token is unchanged in
memory and in durable storage, the apology bubble is rendered and the
typing indicator removed.  The HTTP status itself is never checked, so a
non-2xx response with a valid JSON body is processed as a success and can
update the token. -/
theorem failure_leaves_token_unchanged (mp : String → String)
    (srv : ServerBehavior) (now : String) (s : ChatState)
    (h : ¬ jsTrim s.inputValue = "") (hnt : noTyping s.messages)
    (hf : caughtFailure srv = true) :
    ((submit mp srv now s).fst.sessionId = s.sessionId) ∧
    ((submit mp srv now s).fst.storage = s.storage) ∧
    countApology mp (submit mp srv now s).fst.messages
      = countApology mp s.messages + 1 ∧
    noTyping (submit mp srv now s).fst.messages := by
  have hmain := submit_failure_eq mp srv now s h hnt hf
  rw [hmain]
  refine ⟨rfl, rfl, ?_, ?_⟩
  · simp [countApology, List.filter_append, isApologyBubble]
  · intro hm
    rcases List.mem_append.mp hm with hm1 | hm2
    · exact hnt hm1
    · simp at hm2

/-- Witness: a malformed-JSON reply (for instance an HTML error page body)
with a held token — token intact, apology added, no typing node left. -/
theorem failure_leaves_token_unchanged_witness :
    ((submit (fun x => x) (ServerBehavior.reply false none) "12:00"
        { sessionId := some "abc123", storage := some "abc123",
          inputValue := "hi", messages := [] }).fst.sessionId
      = some "abc123") ∧
    ((submit (fun x => x) (ServerBehavior.reply false none) "12:00"
        { sessionId := some "abc123", storage := some "abc123",
          inputValue := "hi", messages := [] }).fst.storage
      = some "abc123") ∧
    countApology (fun x => x)
      (submit (fun x => x) (ServerBehavior.reply false none) "12:00"
        { sessionId := some "abc123", storage := some "abc123",
          inputValue := "hi", messages := [] }).fst.messages
      = countApology (fun x => x) [] + 1 ∧
    noTyping (submit (fun x => x) (ServerBehavior.reply false none) "12:00"
      { sessionId := some "abc123", storage := some "abc123",
        inputValue := "hi", messages := [] }).fst.messages :=
  failure_leaves_token_unchanged (fun x => x)
    (ServerBehavior.reply false none) "12:00"
    { sessionId := some "abc123", storage := some "abc123",
      inputValue := "hi", messages := [] } (by decide) (by decide) (by decide)

end Chat
